import Mathlib

/-
Verification development for the flow2api token-updater orchestration core
(`token_updater/updater.py` together with the extractor entry point of
`token_updater/browser.py`).

The embedding is a shallow one: the asynchronous Python methods become pure
Lean functions that take an explicit environment (configuration, network
responses, browser outcomes, clock) and thread an explicit state (the profile
store, the per-profile cookie files, the orchestrator's cumulative counters).
Every external call the code makes is also recorded in an event trace, so that
statements of the form "no push call occurs" can be expressed as facts about
the trace.  Single-threaded sequential execution is assumed throughout, which
matches the cooperative scheduling model of the source.
-/

namespace TokenUpdater

/-- One token entry in the body of a `check-tokens` response:
`{email, is_active, needs_refresh}`. -/
structure TokenInfo where
  email : String
  is_active : Bool
  needs_refresh : Bool
deriving DecidableEq

/-- A delivered HTTP response to the `check-tokens` request: a status code and
the decoded `tokens` list (`data.get("tokens", [])`). -/
structure CheckHttp where
  status : Nat
  tokens : List TokenInfo
deriving DecidableEq

/-- A delivered HTTP response to the `update-token` request: a status code,
the decoded `action` field (absent modelled as `none`) and the decoded
`message` field (`data.get("message", "")` defaulted to the empty string). -/
structure PushHttp where
  status : Nat
  action : Option String
  message : String
deriving DecidableEq

/-- A browser cookie, reduced to the two fields the code reads. -/
structure Cookie where
  name : String
  value : String
deriving DecidableEq

/-- The configuration values the orchestration core reads
(`config.connection_token`, `config.session_cookie_name`).  An unconfigured
connection token is `none`; the URLs play no role in the model. -/
structure Config where
  connection_token : Option String
  session_cookie_name : String

/-- The external world during one run: configuration, the network's answer to
the staleness check (`none` is a transport error, i.e. the `except` branch),
the network's answer to a push of a given session token, the outcome of a
browser session for a given profile id (`none` is an exception during the
session, `some cs` the cookies visible after navigation), and the current
clock value used for every `datetime.now()` timestamp. -/
structure Env where
  cfg : Config
  checkResp : Option CheckHttp
  pushResp : String → Option PushHttp
  browserSession : Nat → Option (List Cookie)
  now : Nat

/-- A profile record as stored by the Profile Store, restricted to the fields
the orchestration core reads or writes plus the external activity flag. -/
structure Profile where
  id : Nat
  name : String
  email : Option String
  is_logged_in : Bool
  last_token : Option String
  last_token_time : Option Nat
  last_sync_time : Option Nat
  last_sync_result : Option String
  sync_count : Nat
  error_count : Nat
  is_active : Bool
deriving DecidableEq

/-- The orchestrator's process-wide cumulative state
(`_total_sync_count`, `_total_error_count`, `_last_batch_time`). -/
structure SyncerState where
  total_sync_count : Nat
  total_error_count : Nat
  last_batch_time : Option Nat
deriving DecidableEq

/-- `TokenSyncer.__init__`: counters start at zero, no batch yet. -/
def initialSyncer : SyncerState :=
  { total_sync_count := 0, total_error_count := 0, last_batch_time := none }

/-- The mutable world threaded through a run: the profile store, the
per-profile cookie files (an association list, profile id to cookie list;
absence of an entry is absence of the file) and the orchestrator state. -/
structure St where
  db : List Profile
  files : List (Nat × List Cookie)
  syncer : SyncerState
deriving DecidableEq

/-- External calls made during a run, recorded in order. -/
inductive Event where
  | checkCall (emails : List String)
  | pushCall (token : String)
  | extractCall (pid : Nat)
  | dbGet (pid : Nat)
  | dbUpdate (pid : Nat)
  | dbListActive
deriving DecidableEq

/-- Modelled from the spec: the Profile Store's `get(id)` (src lacks
`database.py`; the store is specified at its boundary only). -/
def get_profile (db : List Profile) (pid : Nat) : Option Profile :=
  db.find? (fun p => p.id = pid)

/-- Modelled from the spec: the Profile Store's `list_active()` returns the
profiles whose external activity flag is set, in listing order. -/
def get_active_profiles (db : List Profile) : List Profile :=
  db.filter (fun p => p.is_active)

/-- Modelled from the spec: the Profile Store's `update(id, partial_fields)`
sets exactly the supplied fields of the profile with the given id ("atomic
per-field-set"); each call site below supplies its own field update `f`. -/
def db_update (db : List Profile) (pid : Nat) (f : Profile → Profile) : List Profile :=
  db.map (fun p => if p.id = pid then f p else p)

/-- Cookie-file lookup in the association list. -/
def lookupFile (files : List (Nat × List Cookie)) (pid : Nat) : Option (List Cookie) :=
  (files.find? (fun e => e.1 = pid)).map (fun e => e.2)

/-- Cookie-file write: replace the entry for `pid`, or add one. -/
def writeFile (files : List (Nat × List Cookie)) (pid : Nat) (cs : List Cookie) :
    List (Nat × List Cookie) :=
  if (files.find? (fun e => e.1 = pid)).isSome then
    files.map (fun e => if e.1 = pid then (pid, cs) else e)
  else
    files ++ [(pid, cs)]

/-- Python truthiness of an optional string field: `None` and `""` are falsy. -/
def truthyStr : Option String → Bool
  | none => false
  | some s => !(s == "")

/-- Python `str.__contains__` on character lists: does `sep` occur as a
contiguous sublist of `l`? -/
def containsSub (sep : List Char) : List Char → Bool
  | [] => sep.isEmpty
  | c :: cs => sep.isPrefixOf (c :: cs) || containsSub sep cs

/-- Fuel-driven scanner behind `pySplit`: Python `str.split(sep)` for a
non-empty `sep`, scanning left to right and consuming each match.  With
`fuel ≥ l.length` the fuel is never exhausted. -/
def pySplitGo (sep : List Char) : Nat → List Char → List Char → List (List Char)
  | _, [], acc => [acc.reverse]
  | 0, l, acc => [acc.reverse ++ l]
  | fuel + 1, c :: cs, acc =>
    if sep.isPrefixOf (c :: cs) then
      acc.reverse :: pySplitGo sep fuel ((c :: cs).drop sep.length) []
    else
      pySplitGo sep fuel cs (c :: acc)

/-- Python `str.split(sep)` (non-empty separator, non-overlapping left-to-right
matches), lifted to `String`. -/
def pySplit (s sep : String) : List String :=
  (pySplitGo sep.data s.data.length s.data []).map String.mk

/-- Modelled from the spec: "the email is the substring after the last
occurrence of that separator" — the suffix of `l` that follows the rightmost
occurrence of `sep`, `none` when `sep` does not occur. -/
def afterLastOcc (sep : List Char) : List Char → Option (List Char)
  | [] => if sep.isEmpty then some [] else none
  | c :: cs =>
    match afterLastOcc sep cs with
    | some r => some r
    | none =>
      if sep.isPrefixOf (c :: cs) then some ((c :: cs).drop sep.length) else none

/-- String form of `afterLastOcc`. -/
def afterLastOccStr (s sep : String) : Option String :=
  (afterLastOcc sep.data s.data).map String.mk

/-- Python rendering of an optional string inside an f-string: a present value
prints itself, an absent one prints as `None`. -/
def pyFormatOpt : Option String → String
  | some s => s
  | none => "None"

/-- The result dictionary of `_check_tokens_status`. -/
structure CheckResult where
  success : Bool
  error : Option String := none
  tokens : List TokenInfo := []
  needs_refresh_emails : List String := []
deriving DecidableEq

/-- The result dictionary shared by `_push_to_flow2api` and `sync_profile`:
`{success, error?, action?, message?, email?}`.  An absent key is `none`. -/
structure ApiResult where
  success : Bool
  error : Option String := none
  action : Option String := none
  message : Option String := none
  email : Option String := none
deriving DecidableEq

/-- The result dictionary of `sync_all_profiles` / `_sync_all_profiles_force`.
An absent key is `none`; the per-profile `results` entries carry
`(profile_id, profile_name, result)`. -/
structure BatchReport where
  success : Bool
  error : Option String := none
  total : Option Nat := none
  synced : Option Nat := none
  success_count : Option Nat := none
  error_count : Option Nat := none
  skipped : Option Nat := none
  message : Option String := none
  results : Option (List (Nat × String × ApiResult)) := none
deriving DecidableEq

/-- `TokenSyncer._check_tokens_status`: short-circuits when no connection
token is configured, otherwise posts to `check-tokens` and, on a 200 response,
computes `needs_refresh_emails` as the emails of the reported tokens whose
`needs_refresh` and `is_active` flags are both truthy.  A transport error or a
non-200 status yields a failure result. -/
def check_tokens_status (env : Env) (emails : List String) : CheckResult × List Event :=
  match env.cfg.connection_token with
  | none => ({ success := false, error := some "未配置 CONNECTION_TOKEN" }, [])
  | some _ =>
    match env.checkResp with
    | none => ({ success := false, error := some "network error" }, [Event.checkCall emails])
    | some r =>
      if r.status = 200 then
        ({ success := true, tokens := r.tokens,
           needs_refresh_emails :=
             (r.tokens.filter (fun t => t.needs_refresh && t.is_active)).map TokenInfo.email },
         [Event.checkCall emails])
      else
        ({ success := false, error := some ("HTTP " ++ toString r.status) },
         [Event.checkCall emails])

/-- `TokenSyncer._push_to_flow2api`: short-circuits when no connection token
is configured, otherwise posts the session token.  On a 200 response the email
is parsed out of the message: if the separator `" for "` occurs in the message,
the email is the last element of the Python split on that separator, else it is
left unset.  A transport error or a non-200 status yields a failure result. -/
def push_to_flow2api (env : Env) (session_token : String) : ApiResult × List Event :=
  match env.cfg.connection_token with
  | none => ({ success := false, error := some "未配置 CONNECTION_TOKEN" }, [])
  | some _ =>
    match env.pushResp session_token with
    | none =>
      ({ success := false, error := some "network error" }, [Event.pushCall session_token])
    | some r =>
      if r.status = 200 then
        ({ success := true,
           action := r.action,
           message := some r.message,
           email :=
             if containsSub " for ".data r.message.data then (pySplit r.message " for ").getLast?
             else none },
         [Event.pushCall session_token])
      else
        ({ success := false, error := some ("HTTP " ++ toString r.status) },
         [Event.pushCall session_token])

/-- `BrowserManager._mask_token`: tokens of length at most 8 (including the
empty token) pass through, longer ones keep four characters on each side. -/
def mask_token (token : String) : String :=
  if token.length ≤ 8 then token
  else String.mk (token.data.take 4) ++ "..." ++ String.mk (token.data.drop (token.length - 4))

/-- `BrowserManager.extract_token` (the body guarded by the single-flight
lock; the model is sequential, so the lock is not represented).  Returns no
token when the profile is absent, when the cookie file is absent, or when the
browser session errors.  When the session completes, the token is the value
of the first session cookie among the resulting cookies (absent if none), and
the source's `if token:` is Python truthiness: only a present, non-empty value
counts — then the cookie file is rewritten and the profile marked logged-in
with a masked copy of the token; otherwise (no session cookie, or an
empty-valued one) the profile is marked logged-out, nothing is written, and
the falsy token is returned as-is.  The source reads the domain-filtered
cookie view for the token and persists the full jar; the model has a single
jar per session, covering both reads. -/
def extract_token (env : Env) (st : St) (pid : Nat) : Option String × St × List Event :=
  match get_profile st.db pid with
  | none => (none, st, [Event.dbGet pid])
  | some _ =>
    match lookupFile st.files pid with
    | none => (none, st, [Event.dbGet pid])
    | some _ =>
      match env.browserSession pid with
      | none => (none, st, [Event.dbGet pid])
      | some new_cookies =>
        let token :=
          (new_cookies.find? (fun c => c.name = env.cfg.session_cookie_name)).map Cookie.value
        if truthyStr token then
          (token,
           { st with
             files := writeFile st.files pid new_cookies,
             db := db_update st.db pid (fun p =>
               { p with is_logged_in := true,
                        last_token := some (mask_token (token.getD "")),
                        last_token_time := some env.now }) },
           [Event.dbGet pid, Event.dbUpdate pid])
        else
          (token,
           { st with db := db_update st.db pid (fun p => { p with is_logged_in := false }) },
           [Event.dbGet pid, Event.dbUpdate pid])

/-- `TokenSyncer.sync_profile`: look up the profile (failure result when
absent), run the extractor, and either record the no-token failure — the
source's `if not token:` is Python truthiness, so an absent and an
empty-string token are both "no token" — or push the token and record the
push outcome.  Counter updates use the profile record read at the top,
exactly as the source does; the `action` interpolation renders an absent
action as Python prints `None` (the `'synced'` default never applies, the key
being always present in a success result). -/
def sync_profile (env : Env) (st : St) (pid : Nat) : ApiResult × St × List Event :=
  match get_profile st.db pid with
  | none => ({ success := false, error := some "Profile 不存在" }, st, [Event.dbGet pid])
  | some profile =>
    let ex := extract_token env st pid
    if !(truthyStr ex.1) then
      ({ success := false, error := some "无法提取 Token，请先登录" },
       { ex.2.1 with
         db := db_update ex.2.1.db pid (fun p =>
           { p with last_sync_time := some env.now,
                    last_sync_result := some "failed: no token",
                    error_count := profile.error_count + 1 }),
         syncer := { ex.2.1.syncer with
                     total_error_count := ex.2.1.syncer.total_error_count + 1 } },
       Event.dbGet pid :: Event.extractCall pid :: ex.2.2 ++ [Event.dbUpdate pid])
    else
      let res := push_to_flow2api env (ex.1.getD "")
      if res.1.success then
        (res.1,
         { ex.2.1 with
           db := db_update ex.2.1.db pid (fun p =>
             { p with email := res.1.email,
                      last_sync_time := some env.now,
                      last_sync_result := some ("success: " ++ pyFormatOpt res.1.action),
                      sync_count := profile.sync_count + 1 }),
           syncer := { ex.2.1.syncer with
                       total_sync_count := ex.2.1.syncer.total_sync_count + 1 } },
         Event.dbGet pid :: Event.extractCall pid :: ex.2.2 ++ res.2 ++ [Event.dbUpdate pid])
      else
        (res.1,
         { ex.2.1 with
           db := db_update ex.2.1.db pid (fun p =>
             { p with last_sync_time := some env.now,
                      last_sync_result := some ("failed: " ++ res.1.error.getD "unknown"),
                      error_count := profile.error_count + 1 }),
           syncer := { ex.2.1.syncer with
                       total_error_count := ex.2.1.syncer.total_error_count + 1 } },
         Event.dbGet pid :: Event.extractCall pid :: ex.2.2 ++ res.2 ++ [Event.dbUpdate pid])

/-- Python dict-key order: first occurrences, in order, duplicates dropped;
`seen` accumulates the keys already emitted. -/
def pyDictKeysGo : List String → List String → List String
  | [], _ => []
  | e :: es, seen =>
    if seen.contains e then pyDictKeysGo es seen else e :: pyDictKeysGo es (e :: seen)

/-- The key list of a Python dict built by successive insertion. -/
def pyDictKeys (es : List String) : List String := pyDictKeysGo es []

/-- The keys of the `profile_emails` dictionary: the truthy emails of the
batch's profiles, first occurrence first, duplicates collapsed. -/
def queriedEmails (profiles : List Profile) : List String :=
  pyDictKeys ((profiles.filter (fun p => truthyStr p.email)).map (fun p => p.email.getD ""))

/-- Aggregate accumulated by a batch loop. -/
structure BatchAcc where
  success_count : Nat
  error_count : Nat
  skipped : Nat
  results : List (Nat × String × ApiResult)
deriving DecidableEq

/-- The refresh condition of the smart loop, Python
`if email and email in needs_refresh_emails`: the profile's email must be
truthy and a member of the refresh set. -/
def refreshCond (needs : List String) (p : Profile) : Bool :=
  truthyStr p.email && needs.contains (p.email.getD "")

/-- The per-profile loop of `sync_all_profiles` (smart mode): a profile that
passes the refresh condition is synced and counted as a success or an error;
every other profile only bumps the skipped counter. -/
def smart_loop (env : Env) (needs : List String) :
    List Profile → St → BatchAcc × St × List Event
  | [], st => ({ success_count := 0, error_count := 0, skipped := 0, results := [] }, st, [])
  | p :: ps, st =>
    if refreshCond needs p then
      let s := sync_profile env st p.id
      let rest := smart_loop env needs ps s.2.1
      ({ success_count :=
           if s.1.success then rest.1.success_count + 1 else rest.1.success_count,
         error_count := if s.1.success then rest.1.error_count else rest.1.error_count + 1,
         skipped := rest.1.skipped,
         results := (p.id, p.name, s.1) :: rest.1.results },
       rest.2.1, s.2.2 ++ rest.2.2)
    else
      let rest := smart_loop env needs ps st
      ({ rest.1 with skipped := rest.1.skipped + 1 }, rest.2.1, rest.2.2)

/-- The per-profile loop of `_sync_all_profiles_force`: every profile is
synced and counted as a success or an error. -/
def force_loop (env : Env) : List Profile → St → BatchAcc × St × List Event
  | [], st => ({ success_count := 0, error_count := 0, skipped := 0, results := [] }, st, [])
  | p :: ps, st =>
    let s := sync_profile env st p.id
    let rest := force_loop env ps s.2.1
    ({ success_count := if s.1.success then rest.1.success_count + 1 else rest.1.success_count,
       error_count := if s.1.success then rest.1.error_count else rest.1.error_count + 1,
       skipped := rest.1.skipped,
       results := (p.id, p.name, s.1) :: rest.1.results },
     rest.2.1, s.2.2 ++ rest.2.2)

/-- `TokenSyncer._sync_all_profiles_force`: re-read the active profiles and
sync each one unconditionally; the report carries no `synced` and no `skipped`
field. -/
def sync_all_profiles_force (env : Env) (st : St) : BatchReport × St × List Event :=
  let run := force_loop env (get_active_profiles st.db) st
  ({ success := true,
     total := some (get_active_profiles st.db).length,
     success_count := some run.1.success_count,
     error_count := some run.1.error_count,
     results := some run.1.results },
   run.2.1, Event.dbListActive :: run.2.2)

/-- `TokenSyncer.sync_all_profiles` (smart sync): missing connection token
fails the batch before any other work; otherwise the batch timestamp is taken,
active profiles loaded, the empty set short-circuits, the staleness check runs
on the truthy known emails, a failed check falls back to the unconditional
sync, an empty refresh set skips everything, and otherwise the smart loop runs
and its aggregate is reported with `synced = success_count + error_count`. -/
def sync_all_profiles (env : Env) (st : St) : BatchReport × St × List Event :=
  match env.cfg.connection_token with
  | none => ({ success := false, error := some "未配置 CONNECTION_TOKEN" }, st, [])
  | some _ =>
    let st0 : St := { st with syncer := { st.syncer with last_batch_time := some env.now } }
    let profiles := get_active_profiles st0.db
    if profiles.isEmpty then
      ({ success := true, total := some 0, synced := some 0, skipped := some 0 }, st0,
       [Event.dbListActive])
    else
      let chk := check_tokens_status env (queriedEmails profiles)
      if !chk.1.success then
        let run := sync_all_profiles_force env st0
        (run.1, run.2.1, Event.dbListActive :: (chk.2 ++ run.2.2))
      else
        if chk.1.needs_refresh_emails.isEmpty then
          ({ success := true, total := some profiles.length, synced := some 0,
             skipped := some profiles.length, message := some "所有 token 未过期" },
           st0, Event.dbListActive :: chk.2)
        else
          let run := smart_loop env chk.1.needs_refresh_emails profiles st0
          ({ success := true,
             total := some profiles.length,
             synced := some (run.1.success_count + run.1.error_count),
             success_count := some run.1.success_count,
             error_count := some run.1.error_count,
             skipped := some run.1.skipped,
             results := some run.1.results },
           run.2.1, Event.dbListActive :: (chk.2 ++ run.2.2))

/-- The state at the start of a credentialed batch: only the last-batch
timestamp is taken (`self._last_batch_time = datetime.now()`). -/
def batchState (env : Env) (st : St) : St :=
  { db := st.db, files := st.files,
    syncer := { total_sync_count := st.syncer.total_sync_count,
                total_error_count := st.syncer.total_error_count,
                last_batch_time := some env.now } }

/-! ### Concrete fixtures used by the closed witness and counterexample
theorems -/

/-- A session cookie sample. -/
def sampleCookie : Cookie := { name := "SID", value := "sessionvalue12345" }

/-- A profile record sample with the given id and email. -/
def mkProfile (pid : Nat) (email : Option String) : Profile :=
  { id := pid, name := "profile", email := email, is_logged_in := true,
    last_token := none, last_token_time := none, last_sync_time := none,
    last_sync_result := none, sync_count := 0, error_count := 0, is_active := true }

/-- A configured connection. -/
def sampleConfig : Config := { connection_token := some "tok", session_cookie_name := "SID" }

/-- An unconfigured connection. -/
def sampleConfigNoTok : Config := { connection_token := none, session_cookie_name := "SID" }

/-- An environment sample built from fixed responses. -/
def mkEnv (cfg : Config) (check : Option CheckHttp) (push : Option PushHttp)
    (session : Option (List Cookie)) : Env :=
  { cfg := cfg, checkResp := check, pushResp := fun _ => push,
    browserSession := fun _ => session, now := 7 }

/-- A check response declaring one identity active and in need of refresh. -/
def sampleCheckOk : CheckHttp :=
  { status := 200,
    tokens := [{ email := "a@b.c", is_active := true, needs_refresh := true }] }

/-- A push response whose message embeds an email after the separator. -/
def samplePushFor : PushHttp :=
  { status := 200, action := some "updated", message := "Token updated for a@b.c" }

/-- A push response whose message lacks the separator. -/
def samplePushNoFor : PushHttp :=
  { status := 200, action := some "updated", message := "Token updated" }

/-- A push response with overlapping separator occurrences in the message. -/
def samplePushOverlap : PushHttp :=
  { status := 200, action := some "updated", message := "x for for y" }

/-- A session cookie with an empty (Python-falsy) value. -/
def emptyCookie : Cookie := { name := "SID", value := "" }

/-- A push response whose message embeds the spec's example email. -/
def samplePushAlice : PushHttp :=
  { status := 200, action := some "updated",
    message := "Token updated for alice@example.com" }

/-- A fully successful environment: check reports one stale identity, pushes
succeed with an embedded email, browser sessions yield the session cookie. -/
def envC1 : Env := mkEnv sampleConfig (some sampleCheckOk) (some samplePushFor) (some [sampleCookie])

/-- A store with one active profile carrying the checked email and its cookie
file present. -/
def stC1 : St :=
  { db := [mkProfile 1 (some "a@b.c")], files := [(1, [sampleCookie])], syncer := initialSyncer }

/-- A store whose single profile has no cookie file. -/
def stC2 : St := { db := [mkProfile 1 none], files := [], syncer := initialSyncer }

/-- An environment whose push responses carry no separator in the message. -/
def envC3 : Env :=
  mkEnv sampleConfig (some sampleCheckOk) (some samplePushNoFor) (some [sampleCookie])

/-- A store with one active profile that already has a stored email. -/
def stC3 : St :=
  { db := [mkProfile 1 (some "alice@example.com")], files := [(1, [sampleCookie])],
    syncer := initialSyncer }

/-- An environment whose staleness check suffers a transport error. -/
def envC4 : Env := mkEnv sampleConfig none (some samplePushFor) (some [sampleCookie])

/-- An environment whose push responses carry overlapping separator
occurrences in the message. -/
def envC5 : Env :=
  mkEnv sampleConfig (some sampleCheckOk) (some samplePushOverlap) (some [sampleCookie])

/-- An environment whose browser sessions yield only an empty-valued session
cookie. -/
def envC2e : Env :=
  mkEnv sampleConfig (some sampleCheckOk) (some samplePushFor) (some [emptyCookie])

/-- A store whose single profile has a cookie file present. -/
def stC2e : St :=
  { db := [mkProfile 1 none], files := [(1, [sampleCookie])], syncer := initialSyncer }

/-- An environment whose push responses embed the spec's example email. -/
def envC5b : Env :=
  mkEnv sampleConfig (some sampleCheckOk) (some samplePushAlice) (some [sampleCookie])

/-! ### Helper lemmas about the store, the extractor and the loops -/

/-- A found profile matches the id it was looked up by. -/
theorem get_profile_id {db : List Profile} {pid : Nat} {p : Profile}
    (h : get_profile db pid = some p) : p.id = pid := by
  have hfind := List.find?_some h
  simpa using hfind

/-- Looking up after an id-preserving update applies the update to the found
record. -/
theorem get_profile_update (db : List Profile) (pid q : Nat) (f : Profile → Profile)
    (hf : ∀ p, (f p).id = p.id) :
    get_profile (db_update db pid f) q
      = (get_profile db q).map (fun p => if p.id = pid then f p else p) := by
  induction db with
  | nil => rfl
  | cons a l ih =>
    simp only [get_profile, db_update, List.map_cons] at *
    by_cases ha : a.id = pid
    · by_cases haq : a.id = q
      · rw [List.find?_cons_of_pos, List.find?_cons_of_pos] <;> simp [ha, haq, hf] <;> omega
      · rw [List.find?_cons_of_neg, List.find?_cons_of_neg]
        · exact ih
        · simpa using haq
        · simp only [if_pos ha, hf]
          simpa using haq
    · simp only [if_neg ha]
      by_cases haq : a.id = q
      · rw [List.find?_cons_of_pos, List.find?_cons_of_pos]
        · simp [ha]
        · simpa using haq
        · simpa using haq
      · rw [List.find?_cons_of_neg, List.find?_cons_of_neg]
        · exact ih
        · simpa using haq
        · simpa using haq

/-- Id-preserving updates keep every lookup's success unchanged. -/
theorem get_profile_update_isSome (db : List Profile) (pid q : Nat) (f : Profile → Profile)
    (hf : ∀ p, (f p).id = p.id) :
    (get_profile (db_update db pid f) q).isSome = (get_profile db q).isSome := by
  rw [get_profile_update db pid q f hf]
  cases get_profile db q <;> rfl

/-- A member of the store is found by its own id. -/
theorem get_profile_isSome_of_mem {db : List Profile} {p : Profile} (hp : p ∈ db) :
    (get_profile db p.id).isSome := by
  rw [get_profile, List.find?_isSome]
  exact ⟨p, hp, by simp⟩

/-- Membership in the dict-key scan: present in the input and not yet seen. -/
theorem pyDictKeysGo_mem (e : String) :
    ∀ (es seen : List String), e ∈ pyDictKeysGo es seen ↔ e ∈ es ∧ e ∉ seen := by
  intro es
  induction es with
  | nil =>
    intro seen
    simp [pyDictKeysGo]
  | cons a es ih =>
    intro seen
    by_cases hc : seen.contains a
    · have ha : a ∈ seen := by simpa using hc
      rw [pyDictKeysGo, if_pos hc, ih seen]
      constructor
      · rintro ⟨h1, h2⟩
        exact ⟨List.mem_cons_of_mem a h1, h2⟩
      · rintro ⟨h1, h2⟩
        rcases List.mem_cons.mp h1 with rfl | h1'
        · exact absurd ha h2
        · exact ⟨h1', h2⟩
    · have ha : a ∉ seen := by simpa using hc
      rw [pyDictKeysGo, if_neg hc]
      by_cases he : e = a
      · subst he
        simp [ha]
      · simp only [List.mem_cons, he, false_or, ih (a :: seen)]

/-- Membership in a Python dict's key list. -/
theorem pyDictKeys_mem (e : String) (es : List String) :
    e ∈ pyDictKeys es ↔ e ∈ es := by
  rw [pyDictKeys, pyDictKeysGo_mem]
  simp

/-- The extractor's possible event traces: a profile read, optionally followed
by one profile update. -/
theorem extract_token_events (env : Env) (st : St) (pid : Nat) :
    (extract_token env st pid).2.2 = [Event.dbGet pid] ∨
    (extract_token env st pid).2.2 = [Event.dbGet pid, Event.dbUpdate pid] := by
  unfold extract_token
  cases hg : get_profile st.db pid with
  | none => simp
  | some p =>
    cases hf : lookupFile st.files pid with
    | none => simp
    | some cs =>
      cases hb : env.browserSession pid with
      | none => simp
      | some cookies =>
        cases ht : truthyStr
            ((cookies.find? (fun c => c.name = env.cfg.session_cookie_name)).map
              Cookie.value) <;>
          simp [ht]

/-- The extractor never touches the orchestrator's counters. -/
theorem extract_token_syncer (env : Env) (st : St) (pid : Nat) :
    (extract_token env st pid).2.1.syncer = st.syncer := by
  unfold extract_token
  cases hg : get_profile st.db pid with
  | none => rfl
  | some p =>
    cases hf : lookupFile st.files pid with
    | none => rfl
    | some cs =>
      cases hb : env.browserSession pid with
      | none => rfl
      | some cookies =>
        cases ht : truthyStr
            ((cookies.find? (fun c => c.name = env.cfg.session_cookie_name)).map
              Cookie.value) <;>
          simp [ht]

/-- The extractor changes the store only through id-preserving updates, so a
lookup's success is unchanged. -/
theorem extract_token_isSome (env : Env) (st : St) (pid q : Nat) :
    (get_profile (extract_token env st pid).2.1.db q).isSome
      = (get_profile st.db q).isSome := by
  unfold extract_token
  cases hg : get_profile st.db pid with
  | none => rfl
  | some p =>
    cases hf : lookupFile st.files pid with
    | none => rfl
    | some cs =>
      cases hb : env.browserSession pid with
      | none => rfl
      | some cookies =>
        cases ht : truthyStr
            ((cookies.find? (fun c => c.name = env.cfg.session_cookie_name)).map
              Cookie.value) <;>
          simp only [ht, Bool.false_eq_true, if_false, if_true, ite_false, ite_true] <;>
          (rw [get_profile_update_isSome]
           exact fun _ => rfl)

/-- Looking up the updated id after an id-preserving update returns the
updated record. -/
theorem get_profile_update_self {db : List Profile} {pid : Nat} {p : Profile}
    (f : Profile → Profile) (hf : ∀ q, (f q).id = q.id)
    (h : get_profile db pid = some p) :
    get_profile (db_update db pid f) pid = some (f p) := by
  rw [get_profile_update db pid pid f hf, h]
  simp [get_profile_id h]

/-- The push client's possible event traces: nothing (missing credential) or
exactly one push call carrying the pushed token. -/
theorem push_events (env : Env) (t : String) :
    (push_to_flow2api env t).2 = [] ∨ (push_to_flow2api env t).2 = [Event.pushCall t] := by
  unfold push_to_flow2api
  repeat' split
  all_goals simp

/-- A sync attempt never decreases either process-wide counter. -/
theorem sync_profile_syncer_mono (env : Env) (st : St) (pid : Nat) :
    st.syncer.total_sync_count ≤ (sync_profile env st pid).2.1.syncer.total_sync_count ∧
    st.syncer.total_error_count ≤ (sync_profile env st pid).2.1.syncer.total_error_count := by
  unfold sync_profile
  cases hg : get_profile st.db pid with
  | none => simp
  | some profile =>
    have hsy := extract_token_syncer env st pid
    cases ht : truthyStr (extract_token env st pid).1 with
    | false => simp [ht, hsy]
    | true =>
      cases hres : (push_to_flow2api env ((extract_token env st pid).1.getD "")).1.success <;>
        simp [ht, hres, hsy]

/-- A completed sync attempt on an existing profile adds exactly one to the
sum of the process-wide counters. -/
theorem sync_profile_totals (env : Env) (st : St) (pid : Nat)
    (h : (get_profile st.db pid).isSome) :
    (sync_profile env st pid).2.1.syncer.total_sync_count
        + (sync_profile env st pid).2.1.syncer.total_error_count
      = st.syncer.total_sync_count + st.syncer.total_error_count + 1 := by
  unfold sync_profile
  cases hg : get_profile st.db pid with
  | none => rw [hg] at h; simp at h
  | some profile =>
    have hsy := extract_token_syncer env st pid
    cases ht : truthyStr (extract_token env st pid).1 with
    | false =>
      simp [ht, hsy]
      omega
    | true =>
      cases hres : (push_to_flow2api env ((extract_token env st pid).1.getD "")).1.success <;>
        simp [ht, hres, hsy] <;> omega

/-- A sync attempt changes the store only through id-preserving updates, so a
lookup's success is unchanged. -/
theorem sync_profile_isSome (env : Env) (st : St) (pid q : Nat) :
    (get_profile (sync_profile env st pid).2.1.db q).isSome
      = (get_profile st.db q).isSome := by
  unfold sync_profile
  cases hg : get_profile st.db pid with
  | none => rfl
  | some profile =>
    have hdb := extract_token_isSome env st pid q
    cases ht : truthyStr (extract_token env st pid).1 with
    | false =>
      simp only [ht, Bool.not_false, if_true, ite_true]
      rw [get_profile_update_isSome]
      · exact hdb
      · exact fun _ => rfl
    | true =>
      cases hres : (push_to_flow2api env ((extract_token env st pid).1.getD "")).1.success <;>
        (simp only [ht, hres, Bool.not_true, Bool.false_eq_true, if_true, if_false,
           ite_true, ite_false]
         rw [get_profile_update_isSome]
         · exact hdb
         · exact fun _ => rfl)

/-- Exactly one extractor call per sync attempt on an existing profile, none
on a missing one. -/
theorem sync_profile_count_extract (env : Env) (st : St) (pid q : Nat) :
    (sync_profile env st pid).2.2.count (Event.extractCall q)
      = if (get_profile st.db pid).isSome ∧ q = pid then 1 else 0 := by
  unfold sync_profile
  cases hg : get_profile st.db pid with
  | none => simp
  | some profile =>
    have hev := extract_token_events env st pid
    cases ht : truthyStr (extract_token env st pid).1 with
    | false =>
      rcases hev with hev | hev <;>
        simp [ht, hev, List.count_cons, List.count_append] <;>
        by_cases hq : q = pid <;> simp [hq] <;> omega
    | true =>
      have hev2 := push_events env ((extract_token env st pid).1.getD "")
      cases hres : (push_to_flow2api env ((extract_token env st pid).1.getD "")).1.success <;>
        (rcases hev with hev | hev <;> rcases hev2 with hev2 | hev2 <;>
          by_cases hq : q = pid <;>
          simp [ht, hres, hev, hev2, hq, List.count_cons, List.count_append])

/-- No push call happens in a sync attempt whose extraction yields no truthy
token. -/
theorem sync_profile_no_push (env : Env) (st : St) (pid : Nat)
    (hex : truthyStr (extract_token env st pid).1 = false) :
    ∀ t, Event.pushCall t ∉ (sync_profile env st pid).2.2 := by
  intro t
  unfold sync_profile
  cases hg : get_profile st.db pid with
  | none => simp
  | some profile =>
    have hev := extract_token_events env st pid
    rcases hev with hev | hev <;> simp [hex, hev]

/-- An extractor call recorded by a sync attempt names that attempt's
profile id. -/
theorem sync_profile_extract_mem (env : Env) (st : St) (pid q : Nat)
    (h : Event.extractCall q ∈ (sync_profile env st pid).2.2) : q = pid := by
  by_contra hne
  have hc := sync_profile_count_extract env st pid q
  rw [if_neg] at hc
  · exact List.count_eq_zero.mp hc h
  · rintro ⟨-, hq⟩
    exact hne hq

/-- Counting invariants of the smart loop: every profile is classified
exactly once, and the skipped count is exactly the number of profiles that
fail the refresh condition. -/
theorem smart_loop_counts (env : Env) (needs : List String) :
    ∀ (ps : List Profile) (st : St),
      (smart_loop env needs ps st).1.success_count
          + (smart_loop env needs ps st).1.error_count
          + (smart_loop env needs ps st).1.skipped = ps.length
        ∧ (smart_loop env needs ps st).1.skipped
            = ps.countP (fun p => !(refreshCond needs p)) := by
  intro ps
  induction ps with
  | nil =>
    intro st
    simp [smart_loop]
  | cons p ps ih =>
    intro st
    by_cases hc : refreshCond needs p = true
    · have ih1 := ih (sync_profile env st p.id).2.1
      cases hr : (sync_profile env st p.id).1.success <;>
        simp [smart_loop, hc, hr, List.countP_cons] <;> omega
    · have ih1 := ih st
      simp [smart_loop, hc, List.countP_cons]
      omega

/-- Every extractor call of the smart loop belongs to a profile that passed
the refresh condition. -/
theorem smart_loop_extract_mem (env : Env) (needs : List String) :
    ∀ (ps : List Profile) (st : St) (q : Nat),
      Event.extractCall q ∈ (smart_loop env needs ps st).2.2 →
      ∃ p, p ∈ ps ∧ refreshCond needs p = true ∧ p.id = q := by
  intro ps
  induction ps with
  | nil =>
    intro st q h
    simp [smart_loop] at h
  | cons p ps ih =>
    intro st q h
    by_cases hc : refreshCond needs p = true
    · simp only [smart_loop, hc, if_true] at h
      rcases List.mem_append.mp h with h | h
      · exact ⟨p, List.mem_cons_self p ps, hc,
          (sync_profile_extract_mem env st p.id q h).symm⟩
      · obtain ⟨p', hp', hcond, hid⟩ := ih (sync_profile env st p.id).2.1 q h
        exact ⟨p', List.mem_cons_of_mem p hp', hcond, hid⟩
    · simp only [smart_loop, hc, if_false, Bool.false_eq_true] at h
      obtain ⟨p', hp', hcond, hid⟩ := ih st q h
      exact ⟨p', List.mem_cons_of_mem p hp', hcond, hid⟩

/-- The smart loop never decreases either process-wide counter. -/
theorem smart_loop_mono (env : Env) (needs : List String) :
    ∀ (ps : List Profile) (st : St),
      st.syncer.total_sync_count ≤ (smart_loop env needs ps st).2.1.syncer.total_sync_count
        ∧ st.syncer.total_error_count
            ≤ (smart_loop env needs ps st).2.1.syncer.total_error_count := by
  intro ps
  induction ps with
  | nil =>
    intro st
    simp [smart_loop]
  | cons p ps ih =>
    intro st
    by_cases hc : refreshCond needs p = true
    · have h1 := sync_profile_syncer_mono env st p.id
      have h2 := ih (sync_profile env st p.id).2.1
      simp only [smart_loop, hc, if_true]
      exact ⟨le_trans h1.1 h2.1, le_trans h1.2 h2.2⟩
    · have h2 := ih st
      simp only [smart_loop]
      rw [if_neg hc]
      exact h2

/-- Counting invariant of the force loop: every profile is counted as a
success or an error, and nothing as skipped. -/
theorem force_loop_counts (env : Env) :
    ∀ (ps : List Profile) (st : St),
      (force_loop env ps st).1.success_count + (force_loop env ps st).1.error_count
          = ps.length
        ∧ (force_loop env ps st).1.skipped = 0 := by
  intro ps
  induction ps with
  | nil =>
    intro st
    simp [force_loop]
  | cons p ps ih =>
    intro st
    have ih1 := ih (sync_profile env st p.id).2.1
    cases hr : (sync_profile env st p.id).1.success <;>
      simp [force_loop, hr] <;> omega

/-- The force loop makes exactly one extractor call per listed profile,
provided every listed profile exists in the store. -/
theorem force_loop_count_extract (env : Env) :
    ∀ (ps : List Profile) (st : St) (q : Nat),
      (∀ p ∈ ps, (get_profile st.db p.id).isSome = true) →
      (force_loop env ps st).2.2.count (Event.extractCall q)
        = ps.countP (fun p => p.id = q) := by
  intro ps
  induction ps with
  | nil =>
    intro st q _
    simp [force_loop]
  | cons p ps ih =>
    intro st q hex
    have hhead := sync_profile_count_extract env st p.id q
    rw [hex p (List.mem_cons_self p ps)] at hhead
    have htail : ∀ p' ∈ ps,
        (get_profile (sync_profile env st p.id).2.1.db p'.id).isSome = true := by
      intro p' hp'
      rw [sync_profile_isSome]
      exact hex p' (List.mem_cons_of_mem p hp')
    have ih1 := ih (sync_profile env st p.id).2.1 q htail
    by_cases hq : q = p.id
    · subst hq
      simp [force_loop, List.count_append, List.countP_cons, hhead, ih1]
      omega
    · have hpq : ¬ p.id = q := fun hh => hq hh.symm
      simp [force_loop, List.count_append, List.countP_cons, hhead, ih1, hq, hpq]

/-- The force loop never decreases either process-wide counter. -/
theorem force_loop_mono (env : Env) :
    ∀ (ps : List Profile) (st : St),
      st.syncer.total_sync_count ≤ (force_loop env ps st).2.1.syncer.total_sync_count
        ∧ st.syncer.total_error_count
            ≤ (force_loop env ps st).2.1.syncer.total_error_count := by
  intro ps
  induction ps with
  | nil =>
    intro st
    simp [force_loop]
  | cons p ps ih =>
    intro st
    have h1 := sync_profile_syncer_mono env st p.id
    have h2 := ih (sync_profile env st p.id).2.1
    simp only [force_loop]
    exact ⟨le_trans h1.1 h2.1, le_trans h1.2 h2.2⟩

/-- The check client's possible event traces: nothing (missing credential) or
exactly one check call carrying the queried emails. -/
theorem check_events (env : Env) (emails : List String) :
    (check_tokens_status env emails).2 = []
      ∨ (check_tokens_status env emails).2 = [Event.checkCall emails] := by
  unfold check_tokens_status
  repeat' split
  all_goals simp

/-- In a store listing with pairwise distinct ids, exactly one entry carries a
member's id. -/
theorem countP_id_of_nodup (ps : List Profile) (p : Profile) (hmem : p ∈ ps)
    (hnd : (ps.map Profile.id).Nodup) : ps.countP (fun q => q.id = p.id) = 1 := by
  induction ps with
  | nil => cases hmem
  | cons a l ih =>
    rw [List.map_cons, List.nodup_cons] at hnd
    rcases List.mem_cons.mp hmem with hpa | hpl
    · subst hpa
      have hz : l.countP (fun q => q.id = p.id) = 0 := by
        rw [List.countP_eq_zero]
        intro q hq
        simp only [decide_eq_true_eq]
        intro hqid
        exact hnd.1 (hqid ▸ List.mem_map_of_mem Profile.id hq)
      simp [List.countP_cons, hz]
    · have hne : ¬ a.id = p.id := by
        intro hh
        exact hnd.1 (hh ▸ List.mem_map_of_mem Profile.id hpl)
      rw [List.countP_cons, ih hpl hnd.2]
      simp [hne]

/-- With a configured credential, a nonempty active set and a failing
staleness check, the smart sync is exactly the forced sync on the batch state,
with the failed check call prefixed to the trace. -/
theorem sync_all_fallback_eq (env : Env) (st : St) (tk : String)
    (htk : env.cfg.connection_token = some tk)
    (hemp : ¬ (get_active_profiles st.db).isEmpty = true)
    (hchk : (check_tokens_status env
        (queriedEmails (get_active_profiles st.db))).1.success = false) :
    sync_all_profiles env st
      = ((sync_all_profiles_force env (batchState env st)).1,
         (sync_all_profiles_force env (batchState env st)).2.1,
         Event.dbListActive ::
           ((check_tokens_status env (queriedEmails (get_active_profiles st.db))).2
             ++ (sync_all_profiles_force env (batchState env st)).2.2)) := by
  unfold sync_all_profiles
  rw [htk]
  simp [batchState, hemp, hchk]

/-- The queried email set: exactly the truthy emails of the given profiles. -/
theorem queriedEmails_mem (ps : List Profile) (e : String) :
    e ∈ queriedEmails ps ↔ ∃ p ∈ ps, p.email = some e ∧ ¬ e = "" := by
  rw [queriedEmails, pyDictKeys_mem]
  simp only [List.mem_map, List.mem_filter]
  constructor
  · rintro ⟨p, ⟨hp, ht⟩, he⟩
    rcases hmail : p.email with _ | s
    · rw [hmail] at ht
      cases ht
    · rw [hmail] at he
      simp only [Option.getD_some] at he
      subst he
      refine ⟨p, hp, hmail, ?_⟩
      simpa [truthyStr, hmail] using ht
  · rintro ⟨p, hp, hmail, hne⟩
    exact ⟨p, ⟨hp, by simp [truthyStr, hmail, hne]⟩, by simp [hmail]⟩

/-- A completed sync attempt on an existing profile bumps exactly one of its
two per-profile counters by exactly one. -/
theorem sync_profile_profile_counts (env : Env) (st : St) (pid : Nat) (p : Profile)
    (hp : get_profile st.db pid = some p) :
    ∃ p', get_profile (sync_profile env st pid).2.1.db pid = some p'
      ∧ ((p'.sync_count = p.sync_count + 1 ∧ p'.error_count = p.error_count)
        ∨ (p'.sync_count = p.sync_count ∧ p'.error_count = p.error_count + 1)) := by
  rcases hf : lookupFile st.files pid with _ | cs
  · have hE : extract_token env st pid = (none, st, [Event.dbGet pid]) := by
      unfold extract_token
      rw [hp, hf]
    unfold sync_profile
    rw [hp, hE]
    exact ⟨_, get_profile_update_self _ (fun q => rfl) hp, Or.inr ⟨rfl, rfl⟩⟩
  · rcases hb : env.browserSession pid with _ | cookies
    · have hE : extract_token env st pid = (none, st, [Event.dbGet pid]) := by
        unfold extract_token
        rw [hp, hf, hb]
      unfold sync_profile
      rw [hp, hE]
      exact ⟨_, get_profile_update_self _ (fun q => rfl) hp, Or.inr ⟨rfl, rfl⟩⟩
    · cases ht : truthyStr
          ((cookies.find? (fun c => c.name = env.cfg.session_cookie_name)).map
            Cookie.value) with
      | false =>
        have hE : extract_token env st pid
            = ((cookies.find? (fun c => c.name = env.cfg.session_cookie_name)).map
                 Cookie.value,
               { st with
                 db := db_update st.db pid (fun q => { q with is_logged_in := false }) },
               [Event.dbGet pid, Event.dbUpdate pid]) := by
          unfold extract_token
          rw [hp, hf, hb]
          simp [ht]
        unfold sync_profile
        rw [hp, hE]
        simp only [ht, Bool.not_false, if_true]
        exact ⟨_, get_profile_update_self _ (fun q => rfl)
            (get_profile_update_self _ (fun q => rfl) hp), Or.inr ⟨rfl, rfl⟩⟩
      | true =>
        have hE : extract_token env st pid
            = ((cookies.find? (fun c => c.name = env.cfg.session_cookie_name)).map
                 Cookie.value,
               { st with
                 files := writeFile st.files pid cookies,
                 db := db_update st.db pid (fun q =>
                   { q with is_logged_in := true,
                            last_token := some (mask_token
                              (((cookies.find?
                                  (fun c => c.name = env.cfg.session_cookie_name)).map
                                    Cookie.value).getD "")),
                            last_token_time := some env.now }) },
               [Event.dbGet pid, Event.dbUpdate pid]) := by
          unfold extract_token
          rw [hp, hf, hb]
          simp [ht]
        unfold sync_profile
        rw [hp, hE]
        simp only [ht, Bool.not_true, Bool.false_eq_true, if_false]
        cases hres : (push_to_flow2api env
            (((cookies.find? (fun c => c.name = env.cfg.session_cookie_name)).map
              Cookie.value).getD "")).1.success <;>
          simp only [hres, Bool.false_eq_true, if_false, if_true, ite_false, ite_true]
        · exact ⟨_, get_profile_update_self _ (fun q => rfl)
              (get_profile_update_self _ (fun q => rfl) hp), Or.inr ⟨rfl, rfl⟩⟩
        · exact ⟨_, get_profile_update_self _ (fun q => rfl)
              (get_profile_update_self _ (fun q => rfl) hp), Or.inl ⟨rfl, rfl⟩⟩

/-- A whole smart-sync batch never decreases either process-wide counter. -/
theorem sync_all_syncer_mono (env : Env) (st : St) :
    st.syncer.total_sync_count ≤ (sync_all_profiles env st).2.1.syncer.total_sync_count
      ∧ st.syncer.total_error_count
          ≤ (sync_all_profiles env st).2.1.syncer.total_error_count := by
  cases htk : env.cfg.connection_token with
  | none =>
    unfold sync_all_profiles
    rw [htk]
    exact ⟨le_refl _, le_refl _⟩
  | some tk =>
    unfold sync_all_profiles
    rw [htk]
    by_cases hemp : (get_active_profiles st.db).isEmpty
    · simp [hemp]
    · by_cases hchk : (check_tokens_status env
          (queriedEmails (get_active_profiles st.db))).1.success
      · by_cases hne : (check_tokens_status env
            (queriedEmails (get_active_profiles st.db))).1.needs_refresh_emails.isEmpty
        · simp [hemp, hchk, hne]
        · have hm := smart_loop_mono env
            (check_tokens_status env
              (queriedEmails (get_active_profiles st.db))).1.needs_refresh_emails
            (get_active_profiles st.db)
            { db := st.db, files := st.files,
              syncer := { total_sync_count := st.syncer.total_sync_count,
                          total_error_count := st.syncer.total_error_count,
                          last_batch_time := some env.now } }
          simp only at hm
          simp [hemp, hchk, hne]
          exact hm
      · have hm := force_loop_mono env (get_active_profiles st.db)
          { db := st.db, files := st.files,
            syncer := { total_sync_count := st.syncer.total_sync_count,
                        total_error_count := st.syncer.total_error_count,
                        last_batch_time := some env.now } }
        simp only at hm
        simp [sync_all_profiles_force, hemp, hchk]
        exact hm

/-! ### Claim theorems -/

/-- Claim C7: if the remote connection credential is not configured, a
smart-sync invocation fails immediately with the missing-credential error and
performs no partial work: the state (profile store, cookie files, cumulative
counters, last-batch timestamp) is unchanged and no external call of any kind
is recorded. -/
theorem claim7_missing_credential (env : Env) (st : St)
    (h : env.cfg.connection_token = none) :
    (sync_all_profiles env st).1.success = false
      ∧ (sync_all_profiles env st).1.error = some "未配置 CONNECTION_TOKEN"
      ∧ (sync_all_profiles env st).2.1 = st
      ∧ (sync_all_profiles env st).2.2 = [] := by
  unfold sync_all_profiles
  rw [h]
  exact ⟨rfl, rfl, rfl, rfl⟩

/-- Witness for C7 at a concrete unconfigured environment. -/
theorem claim7_witness :
    (mkEnv sampleConfigNoTok none none none).cfg.connection_token = none
      ∧ ((sync_all_profiles (mkEnv sampleConfigNoTok none none none)
            { db := [mkProfile 1 none], files := [], syncer := initialSyncer }).1.success = false
        ∧ (sync_all_profiles (mkEnv sampleConfigNoTok none none none)
            { db := [mkProfile 1 none], files := [], syncer := initialSyncer }).1.error
            = some "未配置 CONNECTION_TOKEN"
        ∧ (sync_all_profiles (mkEnv sampleConfigNoTok none none none)
            { db := [mkProfile 1 none], files := [], syncer := initialSyncer }).2.1
            = { db := [mkProfile 1 none], files := [], syncer := initialSyncer }
        ∧ (sync_all_profiles (mkEnv sampleConfigNoTok none none none)
            { db := [mkProfile 1 none], files := [], syncer := initialSyncer }).2.2 = []) :=
  ⟨rfl, claim7_missing_credential _ _ rfl⟩

/-- Claim C10: a single-profile sync on an id absent from the Profile Store
returns a failure result, leaves the whole state (store, files, counters)
unchanged, and records no extractor call and no remote call — only the failed
store lookup. -/
theorem claim10_profile_not_found (env : Env) (st : St) (pid : Nat)
    (h : get_profile st.db pid = none) :
    (sync_profile env st pid).1.success = false
      ∧ (sync_profile env st pid).1.error = some "Profile 不存在"
      ∧ (sync_profile env st pid).2.1 = st
      ∧ (sync_profile env st pid).2.2 = [Event.dbGet pid] := by
  unfold sync_profile
  rw [h]
  exact ⟨rfl, rfl, rfl, rfl⟩

/-- Witness for C10 at a concrete store lacking the requested id. -/
theorem claim10_witness :
    get_profile [mkProfile 1 none] 2 = none
      ∧ ((sync_profile (mkEnv sampleConfig none none none)
            { db := [mkProfile 1 none], files := [], syncer := initialSyncer } 2).1.success = false
        ∧ (sync_profile (mkEnv sampleConfig none none none)
            { db := [mkProfile 1 none], files := [], syncer := initialSyncer } 2).1.error
            = some "Profile 不存在"
        ∧ (sync_profile (mkEnv sampleConfig none none none)
            { db := [mkProfile 1 none], files := [], syncer := initialSyncer } 2).2.1
            = { db := [mkProfile 1 none], files := [], syncer := initialSyncer }
        ∧ (sync_profile (mkEnv sampleConfig none none none)
            { db := [mkProfile 1 none], files := [], syncer := initialSyncer } 2).2.2
            = [Event.dbGet 2]) :=
  ⟨by decide, claim10_profile_not_found _ _ 2 (by decide)⟩

/-- Claim C1: whenever the staleness check succeeds, the smart-sync report
satisfies synced = success_count + error_count and synced + skipped = total,
where total is the number of active profiles loaded for the batch (absent
count fields read as zero). -/
theorem claim1_batch_counts (env : Env) (st : St)
    (htok : env.cfg.connection_token.isSome = true)
    (hchk : (check_tokens_status env
        (queriedEmails (get_active_profiles st.db))).1.success = true) :
    (sync_all_profiles env st).1.synced.getD 0
        = (sync_all_profiles env st).1.success_count.getD 0
          + (sync_all_profiles env st).1.error_count.getD 0
      ∧ (sync_all_profiles env st).1.synced.getD 0
          + (sync_all_profiles env st).1.skipped.getD 0
        = (sync_all_profiles env st).1.total.getD 0
      ∧ (sync_all_profiles env st).1.total = some (get_active_profiles st.db).length := by
  obtain ⟨tk, htk⟩ := Option.isSome_iff_exists.mp htok
  unfold sync_all_profiles
  rw [htk]
  by_cases hemp : (get_active_profiles st.db).isEmpty
  · have hnil : get_active_profiles st.db = [] := by simpa using hemp
    simp [hnil]
  · have hcounts := smart_loop_counts env
      (check_tokens_status env (queriedEmails (get_active_profiles st.db))).1.needs_refresh_emails
      (get_active_profiles st.db)
      { db := st.db, files := st.files,
        syncer := { total_sync_count := st.syncer.total_sync_count,
                    total_error_count := st.syncer.total_error_count,
                    last_batch_time := some env.now } }
    by_cases hne : (check_tokens_status env
        (queriedEmails (get_active_profiles st.db))).1.needs_refresh_emails.isEmpty
    · simp [hemp, hchk, hne]
    · simp [hemp, hchk, hne]
      omega

/-- Claim C2 (amended): when extraction yields no truthy token for an
existing profile (Python `if not token:`, so an absent and an empty-string
token both count), that profile's error_count rises by exactly 1 (sync_count
untouched), its last_sync_result becomes "failed: no token", its
last_sync_time is updated, the attempt returns the no-token failure, the
process-wide error counter rises by 1, and no push call occurs; is_logged_in
is set to false exactly when the cookie file exists and the browser session
completed (yielding no session cookie or an empty-valued one), and is left
unchanged when the cookie file is missing or the session errors. -/
theorem claim2_no_token (env : Env) (st : St) (pid : Nat) (p : Profile)
    (hp : get_profile st.db pid = some p)
    (hex : truthyStr (extract_token env st pid).1 = false) :
    ∃ p', get_profile (sync_profile env st pid).2.1.db pid = some p'
      ∧ p'.error_count = p.error_count + 1
      ∧ p'.sync_count = p.sync_count
      ∧ p'.last_sync_result = some "failed: no token"
      ∧ p'.last_sync_time = some env.now
      ∧ (sync_profile env st pid).1.success = false
      ∧ (sync_profile env st pid).1.error = some "无法提取 Token，请先登录"
      ∧ (sync_profile env st pid).2.1.syncer.total_error_count
          = st.syncer.total_error_count + 1
      ∧ (∀ t, Event.pushCall t ∉ (sync_profile env st pid).2.2)
      ∧ (lookupFile st.files pid = none ∨ env.browserSession pid = none →
          p'.is_logged_in = p.is_logged_in)
      ∧ (lookupFile st.files pid ≠ none → env.browserSession pid ≠ none →
          p'.is_logged_in = false) := by
  rcases hf : lookupFile st.files pid with _ | cs
  · have hE : extract_token env st pid = (none, st, [Event.dbGet pid]) := by
      unfold extract_token
      rw [hp, hf]
    unfold sync_profile
    rw [hp, hE]
    exact ⟨_, get_profile_update_self _ (fun q => rfl) hp, rfl, rfl, rfl, rfl, rfl, rfl, rfl,
      by simp [truthyStr], fun _ => rfl, fun h1 _ => absurd rfl h1⟩
  · rcases hb : env.browserSession pid with _ | cookies
    · have hE : extract_token env st pid = (none, st, [Event.dbGet pid]) := by
        unfold extract_token
        rw [hp, hf, hb]
      unfold sync_profile
      rw [hp, hE]
      exact ⟨_, get_profile_update_self _ (fun q => rfl) hp, rfl, rfl, rfl, rfl, rfl, rfl, rfl,
        by simp [truthyStr], fun _ => rfl, fun _ h2 => absurd rfl h2⟩
    · have hE1 : (extract_token env st pid).1
          = (cookies.find? (fun c => c.name = env.cfg.session_cookie_name)).map
              Cookie.value := by
        unfold extract_token
        rw [hp, hf, hb]
        cases ht : truthyStr
            ((cookies.find? (fun c => c.name = env.cfg.session_cookie_name)).map
              Cookie.value) <;>
          simp [ht]
      rw [hE1] at hex
      have hE : extract_token env st pid
          = ((cookies.find? (fun c => c.name = env.cfg.session_cookie_name)).map Cookie.value,
             { st with db := db_update st.db pid (fun q => { q with is_logged_in := false }) },
             [Event.dbGet pid, Event.dbUpdate pid]) := by
        unfold extract_token
        rw [hp, hf, hb]
        simp [hex]
      unfold sync_profile
      rw [hp, hE]
      dsimp only
      rw [if_pos (show (!truthyStr ((cookies.find?
          (fun c => c.name = env.cfg.session_cookie_name)).map Cookie.value)) = true by
        simp [hex])]
      refine ⟨_, get_profile_update_self _ (fun q => rfl)
          (get_profile_update_self _ (fun q => rfl) hp), rfl, rfl, rfl, rfl, rfl, rfl, rfl,
        by simp, ?_, fun _ _ => rfl⟩
      rintro (h | h) <;> exact Option.noConfusion h

/-- Counterexample to C2 as stated: with the cookie file missing, extraction
yields no token but the profile stays logged in (the claim demands
is_logged_in become false). -/
theorem claim2_counterexample :
    (extract_token envC1 stC2 1).1 = none
      ∧ (get_profile stC2.db 1).map Profile.is_logged_in = some true
      ∧ (get_profile (sync_profile envC1 stC2 1).2.1.db 1).map Profile.is_logged_in
          = some true
      ∧ (get_profile (sync_profile envC1 stC2 1).2.1.db 1).map Profile.error_count
          = some 1 := by
  decide

/-- Witness for the amended C2 at a concrete profile whose browser session
yields only an empty-valued (Python-falsy) session cookie: the no-token path
is taken and the profile is marked logged-out. -/
theorem claim2_witness :
    (get_profile stC2e.db 1 = some (mkProfile 1 none)
        ∧ truthyStr (extract_token envC2e stC2e 1).1 = false
        ∧ (extract_token envC2e stC2e 1).1 = some "")
      ∧ (∃ p', get_profile (sync_profile envC2e stC2e 1).2.1.db 1 = some p'
          ∧ p'.error_count = (mkProfile 1 none).error_count + 1
          ∧ p'.sync_count = (mkProfile 1 none).sync_count
          ∧ p'.last_sync_result = some "failed: no token"
          ∧ p'.last_sync_time = some envC2e.now
          ∧ (sync_profile envC2e stC2e 1).1.success = false
          ∧ (sync_profile envC2e stC2e 1).1.error = some "无法提取 Token，请先登录"
          ∧ (sync_profile envC2e stC2e 1).2.1.syncer.total_error_count
              = stC2e.syncer.total_error_count + 1
          ∧ (∀ t, Event.pushCall t ∉ (sync_profile envC2e stC2e 1).2.2)
          ∧ (lookupFile stC2e.files 1 = none ∨ envC2e.browserSession 1 = none →
              p'.is_logged_in = (mkProfile 1 none).is_logged_in)
          ∧ (lookupFile stC2e.files 1 ≠ none → envC2e.browserSession 1 ≠ none →
              p'.is_logged_in = false)) :=
  ⟨⟨by decide, by decide, by decide⟩,
    claim2_no_token envC2e stC2e 1 (mkProfile 1 none) (by decide) (by decide)⟩

/-- Claim C3, evaluated at the failing input (code bug): a successful push
whose message lacks the separator is not failed and resolves no email, but the
bookkeeping update then overwrites the profile's stored email with the unset
value instead of leaving it unchanged — `result.get("email",
profile.get("email"))` never uses its fallback because the "email" key is
always present (possibly None) in a success result. -/
theorem claim3_email_clobbered :
    (push_to_flow2api envC3 "t").1.success = true
      ∧ (push_to_flow2api envC3 "t").1.email = none
      ∧ (get_profile stC3.db 1).map Profile.email = some (some "alice@example.com")
      ∧ (sync_profile envC3 stC3 1).1.success = true
      ∧ (get_profile (sync_profile envC3 stC3 1).2.1.db 1).map Profile.email
          = some none := by
  decide

/-- Counterexample to C4 as stated: with the credential unconfigured the
staleness check fails, yet the smart-sync batch does not fall back — it fails
outright and makes no extraction attempt for the single active profile. -/
theorem claim4_counterexample :
    (check_tokens_status (mkEnv sampleConfigNoTok none none none)
        (queriedEmails (get_active_profiles stC1.db))).1.success = false
      ∧ (get_active_profiles stC1.db).length = 1
      ∧ (sync_all_profiles (mkEnv sampleConfigNoTok none none none) stC1).1.success = false
      ∧ (sync_all_profiles (mkEnv sampleConfigNoTok none none none) stC1).2.2.count
          (Event.extractCall 1) = 0 := by
  decide

/-- Claim C4 (amended): whenever the credential is configured and the bulk
staleness check fails (transport error or non-200 status), the smart-sync
batch does not fail: it falls back to unconditional sync, making exactly one
extraction attempt per active profile (given distinct profile ids) and
counting every active profile as a success or an error, and the report
classifies nothing as skipped.  With an unconfigured credential the batch
instead fails immediately without falling back. -/
theorem claim4_fallback (env : Env) (st : St)
    (htok : env.cfg.connection_token.isSome = true)
    (hchk : (check_tokens_status env
        (queriedEmails (get_active_profiles st.db))).1.success = false)
    (hnd : ((get_active_profiles st.db).map Profile.id).Nodup) :
    (sync_all_profiles env st).1.success = true
      ∧ (sync_all_profiles env st).1.skipped.getD 0 = 0
      ∧ (sync_all_profiles env st).1.total = some (get_active_profiles st.db).length
      ∧ (sync_all_profiles env st).1.success_count.getD 0
          + (sync_all_profiles env st).1.error_count.getD 0
          = (get_active_profiles st.db).length
      ∧ ∀ p ∈ get_active_profiles st.db,
          (sync_all_profiles env st).2.2.count (Event.extractCall p.id) = 1 := by
  obtain ⟨tk, htk⟩ := Option.isSome_iff_exists.mp htok
  by_cases hemp : (get_active_profiles st.db).isEmpty
  · have hnil : get_active_profiles st.db = [] := by simpa using hemp
    unfold sync_all_profiles
    rw [htk]
    simp [hnil]
  · rw [sync_all_fallback_eq env st tk htk hemp hchk]
    have hcnt := force_loop_counts env (get_active_profiles st.db) (batchState env st)
    have hchkev := check_events env (queriedEmails (get_active_profiles st.db))
    refine ⟨rfl, rfl, by simp [sync_all_profiles_force, batchState], ?_, ?_⟩
    · simp only [batchState] at hcnt
      simp [sync_all_profiles_force, batchState]
      omega
    · intro p hp
      have hex : ∀ p' ∈ get_active_profiles st.db,
          (get_profile (batchState env st).db p'.id).isSome = true := by
        intro p' hp'
        simp only [batchState]
        exact get_profile_isSome_of_mem (List.mem_of_mem_filter hp')
      have hforce := force_loop_count_extract env (get_active_profiles st.db)
        (batchState env st) p.id hex
      have hone := countP_id_of_nodup (get_active_profiles st.db) p hp hnd
      simp only [batchState] at hforce
      rcases hchkev with hchkev | hchkev <;>
        simp [sync_all_profiles_force, batchState, hchkev, List.count_cons,
          List.count_append, hforce, hone]

/-- Witness for C1 at a concrete one-profile batch with a succeeding check. -/
theorem claim1_witness :
    (envC1.cfg.connection_token.isSome = true
      ∧ (check_tokens_status envC1
          (queriedEmails (get_active_profiles stC1.db))).1.success = true)
      ∧ ((sync_all_profiles envC1 stC1).1.synced.getD 0
            = (sync_all_profiles envC1 stC1).1.success_count.getD 0
              + (sync_all_profiles envC1 stC1).1.error_count.getD 0
        ∧ (sync_all_profiles envC1 stC1).1.synced.getD 0
              + (sync_all_profiles envC1 stC1).1.skipped.getD 0
            = (sync_all_profiles envC1 stC1).1.total.getD 0
        ∧ (sync_all_profiles envC1 stC1).1.total
            = some (get_active_profiles stC1.db).length) :=
  ⟨⟨by decide, by decide⟩, claim1_batch_counts envC1 stC1 (by decide) (by decide)⟩

/-- Witness for the amended C4 at a concrete one-profile batch whose check
suffers a transport error. -/
theorem claim4_witness :
    (envC4.cfg.connection_token.isSome = true
      ∧ (check_tokens_status envC4
          (queriedEmails (get_active_profiles stC1.db))).1.success = false
      ∧ ((get_active_profiles stC1.db).map Profile.id).Nodup)
      ∧ ((sync_all_profiles envC4 stC1).1.success = true
        ∧ (sync_all_profiles envC4 stC1).1.skipped.getD 0 = 0
        ∧ (sync_all_profiles envC4 stC1).1.total
            = some (get_active_profiles stC1.db).length
        ∧ (sync_all_profiles envC4 stC1).1.success_count.getD 0
            + (sync_all_profiles envC4 stC1).1.error_count.getD 0
            = (get_active_profiles stC1.db).length
        ∧ ∀ p ∈ get_active_profiles stC1.db,
            (sync_all_profiles envC4 stC1).2.2.count (Event.extractCall p.id) = 1) :=
  ⟨⟨by decide, by decide, by decide⟩,
    claim4_fallback envC4 stC1 (by decide) (by decide) (by decide)⟩

/-- Claim C5 (amended): for every successful push whose response message
contains the separator, the resolved email recorded is exactly the last
element of the Python split of the message on the separator — the suffix
after the final match of a non-overlapping left-to-right scan (which is the
substring after the last occurrence whenever occurrences do not overlap);
"Token updated for alice@example.com" resolves to exactly
"alice@example.com". -/
theorem claim5_email_from_split (env : Env) (tok : String) (r : PushHttp)
    (htok : env.cfg.connection_token.isSome = true)
    (hresp : env.pushResp tok = some r)
    (hst : r.status = 200)
    (hsep : containsSub " for ".data r.message.data = true) :
    (push_to_flow2api env tok).1.success = true
      ∧ (push_to_flow2api env tok).1.email = (pySplit r.message " for ").getLast? := by
  obtain ⟨tk, htk⟩ := Option.isSome_iff_exists.mp htok
  unfold push_to_flow2api
  rw [htk, hresp]
  simp [hst, hsep]

/-- Counterexample to C5 as stated: for the message "x for for y" — whose two
separator occurrences overlap — the recorded email is "for y", not the
substring "y" that follows the last (rightmost) occurrence of the
separator. -/
theorem claim5_counterexample :
    (push_to_flow2api envC5 "t").1.success = true
      ∧ containsSub " for ".data "x for for y".data = true
      ∧ (push_to_flow2api envC5 "t").1.email = some "for y"
      ∧ afterLastOccStr "x for for y" " for " = some "y"
      ∧ ¬ (push_to_flow2api envC5 "t").1.email = afterLastOccStr "x for for y" " for " := by
  decide

/-- Witness for the amended C5 at the spec's example message. -/
theorem claim5_witness :
    (envC5b.cfg.connection_token.isSome = true
      ∧ envC5b.pushResp "t" = some samplePushAlice
      ∧ samplePushAlice.status = 200
      ∧ containsSub " for ".data samplePushAlice.message.data = true)
      ∧ ((push_to_flow2api envC5b "t").1.success = true
        ∧ (push_to_flow2api envC5b "t").1.email
            = (pySplit samplePushAlice.message " for ").getLast?)
      ∧ (push_to_flow2api envC5b "t").1.email = some "alice@example.com" :=
  ⟨⟨by decide, by decide, by decide, by decide⟩,
    claim5_email_from_split envC5b "t" samplePushAlice (by decide) (by decide) (by decide)
      (by decide),
    by decide⟩

/-- Claim C6: when the staleness check succeeds (200 response), the refresh
set is exactly the emails of the reported queried identities whose is_active
and needs_refresh flags are both true; the remote query carries exactly the
truthy emails of the active profiles (profiles lacking an email are excluded);
the report skips exactly the active profiles failing the refresh condition —
in particular every email-less profile and every profile outside the refresh
set — and every extraction performed belongs to an active profile that passed
the refresh condition. -/
theorem claim6_refresh_set (env : Env) (st : St) (r : CheckHttp)
    (htok : env.cfg.connection_token.isSome = true)
    (hresp : env.checkResp = some r)
    (hst : r.status = 200) :
    (check_tokens_status env
        (queriedEmails (get_active_profiles st.db))).1.needs_refresh_emails
        = (r.tokens.filter (fun t => t.needs_refresh && t.is_active)).map TokenInfo.email
      ∧ (∀ e, e ∈ queriedEmails (get_active_profiles st.db)
          ↔ ∃ p ∈ get_active_profiles st.db, p.email = some e ∧ ¬ e = "")
      ∧ (sync_all_profiles env st).1.skipped
          = some ((get_active_profiles st.db).countP
              (fun p => !(refreshCond (check_tokens_status env
                  (queriedEmails (get_active_profiles st.db))).1.needs_refresh_emails p)))
      ∧ (∀ q, Event.extractCall q ∈ (sync_all_profiles env st).2.2 →
          ∃ p ∈ get_active_profiles st.db,
            refreshCond (check_tokens_status env
                (queriedEmails (get_active_profiles st.db))).1.needs_refresh_emails p = true
              ∧ p.id = q) := by
  obtain ⟨tk, htk⟩ := Option.isSome_iff_exists.mp htok
  have hneeds : (check_tokens_status env
      (queriedEmails (get_active_profiles st.db))).1.needs_refresh_emails
      = (r.tokens.filter (fun t => t.needs_refresh && t.is_active)).map TokenInfo.email := by
    unfold check_tokens_status
    rw [htk, hresp]
    simp [hst]
  have hchk : (check_tokens_status env
      (queriedEmails (get_active_profiles st.db))).1.success = true := by
    unfold check_tokens_status
    rw [htk, hresp]
    simp [hst]
  refine ⟨hneeds, fun e => queriedEmails_mem _ e, ?_, ?_⟩
  · unfold sync_all_profiles
    rw [htk]
    by_cases hemp : (get_active_profiles st.db).isEmpty
    · have hnil : get_active_profiles st.db = [] := by simpa using hemp
      simp [hnil]
    · by_cases hne : (check_tokens_status env
          (queriedEmails (get_active_profiles st.db))).1.needs_refresh_emails.isEmpty
      · have hnil : (check_tokens_status env
            (queriedEmails (get_active_profiles st.db))).1.needs_refresh_emails = [] := by
          simpa using hne
        have hall : (get_active_profiles st.db).countP
            (fun p => !(refreshCond (check_tokens_status env
                (queriedEmails (get_active_profiles st.db))).1.needs_refresh_emails p))
            = (get_active_profiles st.db).length := by
          rw [List.countP_eq_length]
          intro p _
          simp [refreshCond, hnil]
        simp [hemp, hchk, hne, hall]
      · have hcounts := smart_loop_counts env
          (check_tokens_status env
            (queriedEmails (get_active_profiles st.db))).1.needs_refresh_emails
          (get_active_profiles st.db)
          { db := st.db, files := st.files,
            syncer := { total_sync_count := st.syncer.total_sync_count,
                        total_error_count := st.syncer.total_error_count,
                        last_batch_time := some env.now } }
        simp [hemp, hchk, hne, hcounts.2]
  · intro q hq
    unfold sync_all_profiles at hq
    rw [htk] at hq
    by_cases hemp : (get_active_profiles st.db).isEmpty
    · simp [hemp] at hq
    · have hchkev := check_events env (queriedEmails (get_active_profiles st.db))
      by_cases hne : (check_tokens_status env
          (queriedEmails (get_active_profiles st.db))).1.needs_refresh_emails.isEmpty
      · rcases hchkev with hev | hev <;> simp [hemp, hchk, hne, hev] at hq
      · rcases hchkev with hev | hev <;>
          simp only [hemp, hchk, hne, hev, Bool.not_true, Bool.false_eq_true, if_false,
            ite_false, ite_true, if_true, Bool.true_eq_false, List.mem_cons, List.mem_append,
            List.mem_singleton, List.not_mem_nil, false_or, or_false] at hq
        · rcases hq with hq | hq
          · cases hq
          · exact smart_loop_extract_mem env _ _ _ q hq
        · rcases hq with hq | hq | hq
          · cases hq
          · cases hq
          · exact smart_loop_extract_mem env _ _ _ q hq

/-- Witness for C6 at a concrete one-profile batch with a succeeding check. -/
theorem claim6_witness :
    (envC1.cfg.connection_token.isSome = true
      ∧ envC1.checkResp = some sampleCheckOk
      ∧ sampleCheckOk.status = 200)
      ∧ ((check_tokens_status envC1
            (queriedEmails (get_active_profiles stC1.db))).1.needs_refresh_emails
          = (sampleCheckOk.tokens.filter
              (fun t => t.needs_refresh && t.is_active)).map TokenInfo.email
        ∧ (∀ e, e ∈ queriedEmails (get_active_profiles stC1.db)
            ↔ ∃ p ∈ get_active_profiles stC1.db, p.email = some e ∧ ¬ e = "")
        ∧ (sync_all_profiles envC1 stC1).1.skipped
            = some ((get_active_profiles stC1.db).countP
                (fun p => !(refreshCond (check_tokens_status envC1
                    (queriedEmails (get_active_profiles stC1.db))).1.needs_refresh_emails p)))
        ∧ (∀ q, Event.extractCall q ∈ (sync_all_profiles envC1 stC1).2.2 →
            ∃ p ∈ get_active_profiles stC1.db,
              refreshCond (check_tokens_status envC1
                  (queriedEmails (get_active_profiles stC1.db))).1.needs_refresh_emails p
                  = true
                ∧ p.id = q)) :=
  ⟨⟨by decide, by decide, by decide⟩,
    claim6_refresh_set envC1 stC1 sampleCheckOk (by decide) (by decide) (by decide)⟩

/-- Claim C8: a completed sync attempt on an existing profile bumps exactly
one of that profile's sync_count / error_count by exactly 1; the process-wide
counters gain exactly one unit per completed attempt, never decrease under a
single attempt or under a whole smart-sync batch, and start at zero with no
reset operation in the core. -/
theorem claim8_counters (env : Env) (st : St) (pid : Nat) (p : Profile)
    (hp : get_profile st.db pid = some p) :
    (∃ p', get_profile (sync_profile env st pid).2.1.db pid = some p'
      ∧ ((p'.sync_count = p.sync_count + 1 ∧ p'.error_count = p.error_count)
        ∨ (p'.sync_count = p.sync_count ∧ p'.error_count = p.error_count + 1)))
      ∧ (sync_profile env st pid).2.1.syncer.total_sync_count
          + (sync_profile env st pid).2.1.syncer.total_error_count
        = st.syncer.total_sync_count + st.syncer.total_error_count + 1
      ∧ st.syncer.total_sync_count
          ≤ (sync_profile env st pid).2.1.syncer.total_sync_count
      ∧ st.syncer.total_error_count
          ≤ (sync_profile env st pid).2.1.syncer.total_error_count
      ∧ (∀ (env2 : Env) (st2 : St),
          st2.syncer.total_sync_count
              ≤ (sync_all_profiles env2 st2).2.1.syncer.total_sync_count
            ∧ st2.syncer.total_error_count
              ≤ (sync_all_profiles env2 st2).2.1.syncer.total_error_count)
      ∧ initialSyncer.total_sync_count = 0
      ∧ initialSyncer.total_error_count = 0 :=
  ⟨sync_profile_profile_counts env st pid p hp,
   sync_profile_totals env st pid (by rw [hp]; rfl),
   (sync_profile_syncer_mono env st pid).1,
   (sync_profile_syncer_mono env st pid).2,
   fun env2 st2 => sync_all_syncer_mono env2 st2,
   rfl, rfl⟩

/-- Witness for C8 at a concrete existing profile. -/
theorem claim8_witness :
    get_profile stC1.db 1 = some (mkProfile 1 (some "a@b.c"))
      ∧ ((∃ p', get_profile (sync_profile envC1 stC1 1).2.1.db 1 = some p'
          ∧ ((p'.sync_count = (mkProfile 1 (some "a@b.c")).sync_count + 1
                ∧ p'.error_count = (mkProfile 1 (some "a@b.c")).error_count)
            ∨ (p'.sync_count = (mkProfile 1 (some "a@b.c")).sync_count
                ∧ p'.error_count = (mkProfile 1 (some "a@b.c")).error_count + 1)))
        ∧ (sync_profile envC1 stC1 1).2.1.syncer.total_sync_count
            + (sync_profile envC1 stC1 1).2.1.syncer.total_error_count
          = stC1.syncer.total_sync_count + stC1.syncer.total_error_count + 1
        ∧ stC1.syncer.total_sync_count
            ≤ (sync_profile envC1 stC1 1).2.1.syncer.total_sync_count
        ∧ stC1.syncer.total_error_count
            ≤ (sync_profile envC1 stC1 1).2.1.syncer.total_error_count
        ∧ (∀ (env2 : Env) (st2 : St),
            st2.syncer.total_sync_count
                ≤ (sync_all_profiles env2 st2).2.1.syncer.total_sync_count
              ∧ st2.syncer.total_error_count
                ≤ (sync_all_profiles env2 st2).2.1.syncer.total_error_count)
        ∧ initialSyncer.total_sync_count = 0
        ∧ initialSyncer.total_error_count = 0) :=
  ⟨by decide, claim8_counters envC1 stC1 1 (mkProfile 1 (some "a@b.c")) (by decide)⟩

end TokenUpdater
